import Mathlib

/-!
Verification model of the IDX stock fetcher Lambda function
(`lambda_function.py`).  The Python source is shallowly embedded:

* `Json` models decoded JSON values (feed items, response bodies);
* `Date` models `datetime.date` values (year/month/day);
* `parseDateTime` models `datetime.strptime(s, "%Y-%m-%dT%H:%M:%S").date()`
  (CPython `_strptime` accepts 1-2 digit month/day/hour/minute/second
  fields, requires exactly four year digits, matches the literal `T`
  case-insensitively, and the `datetime` constructor then validates
  calendar ranges);
* `generate_stock_id` models the identity deriver, with
  `strftime("%Y-%m-%d")` modelled by glibc semantics: month and day are
  zero-padded to two digits, the year is printed in decimal without
  zero padding;
* `normalizeItem`, `buildBatch` model the per-item normalization loop;
* `get_db_connection`, `runBody`, `lambda_handler` model the
  orchestrator together with its exception taxonomy, against an
  environment (`HandlerEnv`) describing the outcomes of the external
  HTTP fetch, `psycopg2.connect`, `executemany` and `commit`;
* `mergeOnConflict` / `upsertOne` model the `ON CONFLICT (stock_code,
  date) DO UPDATE` clause of the batched insert statement.
-/

namespace IdxStock

/-- Model of `datetime.date`: a calendar date. -/
structure Date where
  year : Nat
  month : Nat
  day : Nat
deriving DecidableEq, Repr

/-- Decimal digit characters (used by the `strftime` model). -/
def digitChar : Nat → Char
  | 0 => '0'
  | 1 => '1'
  | 2 => '2'
  | 3 => '3'
  | 4 => '4'
  | 5 => '5'
  | 6 => '6'
  | 7 => '7'
  | 8 => '8'
  | _ => '9'

/-- Decimal digits of a positive number, most significant first,
computed with explicit fuel (the fuel only needs to cover the number
of digits, and `n` always does). -/
def natStrAux : Nat → Nat → List Char
  | 0, _ => []
  | _ + 1, 0 => []
  | fuel + 1, n + 1 => natStrAux fuel ((n + 1) / 10) ++ [digitChar ((n + 1) % 10)]

/-- Decimal digits of `n`, most significant first; `natStr 0 = ['0']`.
Models the unpadded decimal rendering used by glibc `strftime` for `%Y`. -/
def natStr (n : Nat) : List Char :=
  if n = 0 then ['0'] else natStrAux n n

/-- Two zero-padded decimal digits; models `strftime` `%m` / `%d`
(always two digits for the values `datetime` can hold). -/
def pad2c (n : Nat) : List Char :=
  [digitChar (n / 10 % 10), digitChar (n % 10)]

/-- Model of `date_obj.strftime("%Y-%m-%d")` as a character list. -/
def dateChars (d : Date) : List Char :=
  natStr d.year ++ '-' :: (pad2c d.month ++ '-' :: pad2c d.day)

/-- Model of `date_obj.strftime("%Y-%m-%d")`. -/
def strftimeYmd (d : Date) : String :=
  String.mk (dateChars d)

/-- Model of `generate_stock_id(stock_code, date_obj)`:
`f"{stock_code}_{date_obj.strftime('%Y-%m-%d')}"`. -/
def generate_stock_id (stock_code : String) (date_obj : Date) : String :=
  stock_code ++ "_" ++ strftimeYmd date_obj

/-- Leap-year rule used by `datetime` (proleptic Gregorian). -/
def isLeapYear (y : Nat) : Bool :=
  (y % 4 = 0 && y % 100 ≠ 0) || y % 400 = 0

/-- Days in a month, as validated by the `datetime` constructor. -/
def daysInMonth (y m : Nat) : Nat :=
  match m with
  | 2 => if isLeapYear y then 29 else 28
  | 4 | 6 | 9 | 11 => 30
  | _ => 31

/-- Calendar validity as enforced by `datetime.date` (`MINYEAR = 1`,
`MAXYEAR = 9999`). -/
def validDate (d : Date) : Bool :=
  1 ≤ d.year && d.year ≤ 9999 &&
  1 ≤ d.month && d.month ≤ 12 &&
  1 ≤ d.day && d.day ≤ daysInMonth d.year d.month

/-- Numeric value of a list of digit characters, most significant first. -/
def digitsVal (l : List Char) : Nat :=
  l.foldl (fun a c => 10 * a + (c.toNat - 48)) 0

/-- Splits off the leading run of decimal-digit characters. -/
def takeDigits : List Char → List Char × List Char
  | [] => ([], [])
  | c :: cs =>
    if c.isDigit then
      let p := takeDigits cs
      (c :: p.1, p.2)
    else ([], c :: cs)

/-- Reads a 1-2 digit field whose value must lie in `[lo, hi]`, as the
`_strptime` regular expressions for `%m`/`%d`/`%H`/`%M`/`%S` admit
(combined, for seconds, with the `datetime` constructor's `0..59` bound). -/
def runVal (lo hi : Nat) (l : List Char) : Option Nat :=
  if l.length = 1 ∨ l.length = 2 then
    let v := digitsVal l
    if lo ≤ v ∧ v ≤ hi then some v else none
  else none

/-- Model of `datetime.strptime(s, "%Y-%m-%dT%H:%M:%S").date()`:
`some` of the calendar date on success, `none` when Python raises
`ValueError` (regex mismatch, unconverted data, or constructor range
check). -/
def parseDateTime (s : String) : Option Date :=
  match s.data with
  | c1 :: c2 :: c3 :: c4 :: '-' :: rest =>
    if c1.isDigit && c2.isDigit && c3.isDigit && c4.isDigit then
      let y := digitsVal [c1, c2, c3, c4]
      let pm := takeDigits rest
      match runVal 1 12 pm.1, pm.2 with
      | some m, '-' :: rest2 =>
        let pd := takeDigits rest2
        match runVal 1 31 pd.1, pd.2 with
        | some d, t :: rest3 =>
          if t = 'T' ∨ t = 't' then
            let ph := takeDigits rest3
            match runVal 0 23 ph.1, ph.2 with
            | some _, ':' :: rest4 =>
              let pmin := takeDigits rest4
              match runVal 0 59 pmin.1, pmin.2 with
              | some _, ':' :: rest5 =>
                let psec := takeDigits rest5
                match runVal 0 59 psec.1, psec.2 with
                | some _, [] =>
                  if 1 ≤ y ∧ d ≤ daysInMonth y m then
                    some ⟨y, m, d⟩
                  else none
                | _, _ => none
              | _, _ => none
            | _, _ => none
          else none
        | _, _ => none
      | _, _ => none
    else none
  | _ => none

/-- Decoded JSON values, as produced by `response.json()`. -/
inductive Json where
  | null
  | bool (b : Bool)
  | num (q : Rat)
  | str (s : String)
  | arr (elems : List Json)
  | obj (fields : List (String × Json))

mutual

/-- Structural equality of decoded JSON values. -/
def jsonBeq : Json → Json → Bool
  | .null, .null => true
  | .bool a, .bool b => a = b
  | .num a, .num b => a = b
  | .str a, .str b => a = b
  | .arr as, .arr bs => jsonListBeq as bs
  | .obj as, .obj bs => jsonFieldsBeq as bs
  | _, _ => false

/-- Structural equality of JSON arrays. -/
def jsonListBeq : List Json → List Json → Bool
  | [], [] => true
  | a :: as, b :: bs => jsonBeq a b && jsonListBeq as bs
  | _, _ => false

/-- Structural equality of JSON object field lists. -/
def jsonFieldsBeq : List (String × Json) → List (String × Json) → Bool
  | [], [] => true
  | (ka, va) :: as, (kb, vb) :: bs => ka = kb && jsonBeq va vb && jsonFieldsBeq as bs
  | _, _ => false

end

/-- Lookup of a key in a decoded JSON object (Python `dict` access). -/
def lookupField (fields : List (String × Json)) (k : String) : Option Json :=
  match fields with
  | [] => none
  | (k', v) :: rest => if k' = k then some v else lookupField rest k

/-- Python truthiness of a decoded JSON value (`None`, `False`, `0`,
empty string/list/dict are falsy). -/
def truthy : Json → Bool
  | .null => false
  | .bool b => b
  | .num q => q ≠ 0
  | .str s => s ≠ ""
  | .arr l => !l.isEmpty
  | .obj l => !l.isEmpty

/-- Python exception classes that this program can raise and inspect;
the payload is `str(e)`. -/
inductive PyError where
  | valueError (msg : String)
  | keyError (msg : String)
  | typeError (msg : String)
  | attributeError (msg : String)
deriving DecidableEq, Repr

/-- Model of `str(e)` for a caught exception `e`. -/
def strOfPyError : PyError → String
  | .valueError m => m
  | .keyError m => m
  | .typeError m => m
  | .attributeError m => m

/-- Model of `item[k]`: `KeyError` on a missing key, `TypeError` when
`item` is not a mapping. -/
def pySubscript (item : Json) (k : String) : Except PyError Json :=
  match item with
  | .obj fields =>
    match lookupField fields k with
    | some v => .ok v
    | none => .error (.keyError ("'" ++ k ++ "'"))
  | _ => .error (.typeError "object is not subscriptable")

/-- Model of `item.get(k)` on a mapping (returns `None` when absent). -/
def pyGet (fields : List (String × Json)) (k : String) : Option Json :=
  lookupField fields k

/-- Model of `item.get(k, 0)`: the value when present, `0` otherwise. -/
def pyGetD (fields : List (String × Json)) (k : String) : Json :=
  (lookupField fields k).getD (.num 0)

/-- Model of `item.get(k) or None`: `None` when the key is absent or
its value is falsy (in particular the empty string). -/
def pyGetOrNone (fields : List (String × Json)) (k : String) : Option Json :=
  match lookupField fields k with
  | some v => if truthy v then some v else none
  | none => none

/-- Model of `str(x)` as used by the f-string in `generate_stock_id`. -/
def pyStrOf : Json → String
  | .str s => s
  | .num q => toString q
  | .bool true => "True"
  | .bool false => "False"
  | .null => "None"
  | .arr _ => "[...]"
  | .obj _ => "\x7b...\x7d"

/-- One normalized record, in the exact field order of the
`batch_data` tuple / `stock_summary` column list of the insert query. -/
structure StockRecord where
  id_stock : String
  stock_code : Json
  date : Date
  stock_name : Json
  remarks : Option Json
  previous : Json
  open_price : Json
  first_trade : Json
  high : Json
  low : Json
  close : Json
  change : Json
  volume : Json
  value : Json
  frequency : Json
  index_individual : Json
  offer : Json
  offer_volume : Json
  bid : Json
  bid_volume : Json
  listed_shares : Json
  tradeable_shares : Json
  weight_for_index : Json
  foreign_sell : Json
  foreign_buy : Json
  delisting_date : Option Json
  non_regular_volume : Json
  non_regular_value : Json
  non_regular_frequency : Json

/-- Model of `datetime.strptime(v, "%Y-%m-%dT%H:%M:%S").date()` on a
decoded value: `TypeError` on a non-string argument, `ValueError` on a
parse failure. -/
def strptimeDate (j : Json) : Except PyError Date :=
  match j with
  | .str s =>
    match parseDateTime s with
    | some d => .ok d
    | none =>
      .error (.valueError
        ("time data '" ++ s ++ "' does not match format '%Y-%m-%dT%H:%M:%S'"))
  | _ => .error (.typeError "strptime() argument 1 must be str")

/-- Model of the body of the `for item in data['data']` loop: builds
the tuple appended to `batch_data`, or raises.  `item['Date']` raises
`TypeError` on a non-mapping item, `strptime` raises `TypeError` on a
non-string argument and `ValueError` on a parse failure; the required
lookups `Date`, `StockCode`, `StockName` raise `KeyError` when absent. -/
def normalizeItem (item : Json) : Except PyError StockRecord :=
  match item with
  | .obj fields =>
    (match pySubscript (.obj fields) "Date" with
     | .error e => .error e
     | .ok dateJson =>
     match strptimeDate dateJson with
     | .error e => .error e
     | .ok date_obj =>
     match pySubscript (.obj fields) "StockCode" with
     | .error e => .error e
     | .ok stock_code =>
     match pySubscript (.obj fields) "StockName" with
     | .error e => .error e
     | .ok stock_name =>
     Except.ok
       { id_stock := generate_stock_id (pyStrOf stock_code) date_obj
         stock_code := stock_code
         date := date_obj
         stock_name := stock_name
         remarks := pyGetOrNone fields "Remarks"
         previous := pyGetD fields "Previous"
         open_price := pyGetD fields "OpenPrice"
         first_trade := pyGetD fields "FirstTrade"
         high := pyGetD fields "High"
         low := pyGetD fields "Low"
         close := pyGetD fields "Close"
         change := pyGetD fields "Change"
         volume := pyGetD fields "Volume"
         value := pyGetD fields "Value"
         frequency := pyGetD fields "Frequency"
         index_individual := pyGetD fields "IndexIndividual"
         offer := pyGetD fields "Offer"
         offer_volume := pyGetD fields "OfferVolume"
         bid := pyGetD fields "Bid"
         bid_volume := pyGetD fields "BidVolume"
         listed_shares := pyGetD fields "ListedShares"
         tradeable_shares := pyGetD fields "TradebleShares"
         weight_for_index := pyGetD fields "WeightForIndex"
         foreign_sell := pyGetD fields "ForeignSell"
         foreign_buy := pyGetD fields "ForeignBuy"
         delisting_date := pyGetOrNone fields "DelistingDate"
         non_regular_volume := pyGetD fields "NonRegularVolume"
         non_regular_value := pyGetD fields "NonRegularValue"
         non_regular_frequency := pyGetD fields "NonRegularFrequency" })
  | _ => .error (.typeError "object is not subscriptable")

/-- Model of the normalization loop with its per-item
`except (ValueError, KeyError): continue` handler: `ValueError` and
`KeyError` skip the item, every other exception propagates. -/
def buildBatch : List Json → Except PyError (List StockRecord)
  | [] => .ok []
  | item :: rest =>
    match normalizeItem item with
    | .ok r =>
      match buildBatch rest with
      | .ok rs => .ok (r :: rs)
      | .error e => .error e
    | .error (.valueError _) => buildBatch rest
    | .error (.keyError _) => buildBatch rest
    | .error e => .error e

/-- Scope predicate for the normalization claims: the item is a
mapping and its `Date` entry, when present, is a string (so the only
exceptions the loop body can raise are `ValueError` and `KeyError`). -/
def itemScopeB (item : Json) : Bool :=
  match item with
  | .obj fields =>
    match lookupField fields "Date" with
    | some (.str _) => true
    | some _ => false
    | none => true
  | _ => false

/-- An item the loop keeps: a mapping with a parseable string `Date`
and with `StockCode` and `StockName` present. -/
def wellFormedItem (item : Json) : Bool :=
  match item with
  | .obj fields =>
    (match lookupField fields "Date" with
     | some (.str s) => (parseDateTime s).isSome
     | _ => false)
    && (lookupField fields "StockCode").isSome
    && (lookupField fields "StockName").isSome
  | _ => false

/-- One stored row of `stock_summary`: the record fields plus the
server-maintained `updated_at` (set only by the conflict-update path
in the statement at hand). -/
structure Row where
  stored : StockRecord
  updated_at : Option String

/-- Model of the `DO UPDATE SET` clause of the insert query: the
existing row takes `EXCLUDED` values for exactly the columns listed
there; every column not listed keeps its stored value. -/
def mergeOnConflict (old excluded : StockRecord) : StockRecord :=
  { old with
    id_stock := excluded.id_stock
    stock_name := excluded.stock_name
    remarks := excluded.remarks
    previous := excluded.previous
    open_price := excluded.open_price
    first_trade := excluded.first_trade
    high := excluded.high
    low := excluded.low
    close := excluded.close
    change := excluded.change
    volume := excluded.volume
    value := excluded.value
    frequency := excluded.frequency
    index_individual := excluded.index_individual
    offer := excluded.offer
    offer_volume := excluded.offer_volume
    bid := excluded.bid
    bid_volume := excluded.bid_volume
    foreign_sell := excluded.foreign_sell
    foreign_buy := excluded.foreign_buy }

/-- Conflict test on the natural key `(stock_code, date)`. -/
def keyMatches (row : Row) (r : StockRecord) : Bool :=
  jsonBeq row.stored.stock_code r.stock_code && row.stored.date = r.date

/-- Model of one `INSERT ... ON CONFLICT (stock_code, date) DO UPDATE`
against a table holding at most one row per natural key: the first
conflicting row is merged (with `updated_at = CURRENT_TIMESTAMP`,
modelled by `now`); absent a conflict the record is appended. -/
def upsertOne (now : String) (t : List Row) (r : StockRecord) : List Row :=
  match t with
  | [] => [⟨r, none⟩]
  | row :: rest =>
    if keyMatches row r then ⟨mergeOnConflict row.stored r, some now⟩ :: rest
    else row :: upsertOne now rest r

/-- Row lookup by natural key. -/
def findRow (t : List Row) (r : StockRecord) : Option Row :=
  match t with
  | [] => none
  | row :: rest => if keyMatches row r then some row else findRow rest r

/-- Fixed result shape of the Lambda handler: `statusCode` plus the
decoded form of the `json.dumps` body. -/
structure Response where
  statusCode : Nat
  body : Json

/-- Body `json.dumps({'error': msg})`. -/
def errBody (msg : String) : Json :=
  .obj [("error", .str msg)]

/-- Outcome of `requests.get` + `raise_for_status` + `response.json()`,
as seen by the handler's `except` clauses. -/
inductive FetchOutcome where
  | timeout
  | httpError (statusCode : Nat) (detail : String)
  | requestFailed (detail : String)
  | success (body : Json)

/-- Exceptions that can cross the database-facing part of the body:
Python exceptions and `psycopg2.DatabaseError` (with `str(e)`). -/
inductive Exc where
  | py (e : PyError)
  | dbError (detail : String)

/-- Exceptions the outer `try` can see, in the order of the `except`
clauses. -/
inductive BodyExc where
  | timeout
  | httpError (code : Nat) (detail : String)
  | requestFailed (detail : String)
  | exc (e : Exc)

/-- The required and optional configuration read from `os.environ`. -/
structure EnvVars where
  db_host : Option String
  db_name : Option String
  db_user : Option String
  db_password : Option String
  db_port : Option String

/-- Model of `get_db_connection()` acting on the process-wide `conn`
(`none` = no handle, `some true` = handle reports closed, `some false`
= open handle): reuse an open handle, otherwise read the required
environment keys in source order (raising `KeyError` on the first
missing one) and open a connection (`connectOutcome` gives the result
of `psycopg2.connect`).  On any failure the shared handle is set to
`None` and the exception propagates. -/
def get_db_connection (vars : EnvVars) (connectOutcome : Except String Unit)
    (conn : Option Bool) : Option Bool × Except Exc Unit :=
  match conn with
  | some false => (some false, .ok ())
  | _ =>
    if vars.db_host.isNone then (none, .error (.py (.keyError "'DB_HOST'")))
    else if vars.db_name.isNone then (none, .error (.py (.keyError "'DB_NAME'")))
    else if vars.db_user.isNone then (none, .error (.py (.keyError "'DB_USER'")))
    else if vars.db_password.isNone then (none, .error (.py (.keyError "'DB_PASSWORD'")))
    else
      match connectOutcome with
      | .ok () => (some false, .ok ())
      | .error d => (none, .error (.dbError d))

/-- Model of `data.get('data')`: `AttributeError` when the decoded
body is not a mapping. -/
def pyGetAttrData (j : Json) (k : String) : Except PyError (Option Json) :=
  match j with
  | .obj fields => .ok (lookupField fields k)
  | _ => .error (.attributeError "object has no attribute get")

/-- Model of `len(x)`: defined for strings, lists and mappings. -/
def pyLen : Json → Except PyError Nat
  | .str s => .ok s.length
  | .arr l => .ok l.length
  | .obj l => .ok l.length
  | _ => .error (.typeError "object has no len")

/-- Model of `for item in x`: the sequence of iterated values
(characters of a string, keys of a mapping, elements of a list);
`TypeError` otherwise. -/
def iterElems : Json → Except PyError (List Json)
  | .arr l => .ok l
  | .str s => .ok (s.data.map fun c => .str (String.mk [c]))
  | .obj l => .ok (l.map fun kv => .str kv.fst)
  | _ => .error (.typeError "object is not iterable")

/-- Mutable facts observed while the handler body runs: the shared
connection handle, whether `get_db_connection` was called, whether the
cursor was opened, and the rows made durable by a successful commit. -/
structure St where
  conn : Option Bool
  connectAttempted : Bool
  cursorOpened : Bool
  committed : List StockRecord

/-- Initial state of an invocation (global `conn` carried over). -/
def initSt (c : Option Bool) : St :=
  ⟨c, false, false, []⟩

/-- State after a successful `get_db_connection` + `cursor()`. -/
def connSt (c : Option Bool) : St :=
  ⟨c, true, true, []⟩

/-- Environment of one invocation: outcomes of every external effect
the handler performs. -/
structure HandlerEnv where
  fetch : FetchOutcome
  envVars : EnvVars
  connectOutcome : Except String Unit
  execOutcome : Except String Unit
  commitOutcome : Except String Unit
  now : String
  initialConn : Option Bool

/-- The `try` body of `lambda_handler`: fetch, the `data` check, the
connection/cursor acquisition, the normalization loop, the batched
insert (skipped when the batch is empty) and the commit, yielding
either a returned response or the exception reaching the `except`
chain, together with the observed state. -/
def runBody (env : HandlerEnv) : St × Except BodyExc Response :=
  match env.fetch with
  | .timeout => (initSt env.initialConn, .error .timeout)
  | .httpError c d => (initSt env.initialConn, .error (.httpError c d))
  | .requestFailed d => (initSt env.initialConn, .error (.requestFailed d))
  | .success data =>
    match pyGetAttrData data "data" with
    | .error e => (initSt env.initialConn, .error (.exc (.py e)))
    | .ok dv =>
      match dv with
      | none => (initSt env.initialConn, .ok ⟨400, errBody "No data received from API"⟩)
      | some v =>
        if truthy v = false then
          (initSt env.initialConn, .ok ⟨400, errBody "No data received from API"⟩)
        else
          match pyLen v with
          | .error e => (initSt env.initialConn, .error (.exc (.py e)))
          | .ok _ =>
            match get_db_connection env.envVars env.connectOutcome env.initialConn with
            | (c, .error e) => (⟨c, true, false, []⟩, .error (.exc e))
            | (c, .ok ()) =>
              match iterElems v with
              | .error e => (connSt c, .error (.exc (.py e)))
              | .ok items =>
                match buildBatch items with
                | .error e => (connSt c, .error (.exc (.py e)))
                | .ok batch =>
                  match (if batch.isEmpty then Except.ok () else env.execOutcome) with
                  | .error d => (connSt c, .error (.exc (.dbError d)))
                  | .ok () =>
                    match env.commitOutcome with
                    | .error d => (connSt c, .error (.exc (.dbError d)))
                    | .ok () =>
                      (⟨c, true, true, batch⟩,
                       .ok ⟨200, .obj [("message", .str "Data processed successfully"),
                                       ("records_processed", .num batch.length),
                                       ("timestamp", .str env.now)]⟩)

/-- Everything observable about one finished invocation: the returned
response, the final shared handle, and whether a connection was
attempted, the cursor opened/closed, a rollback issued, and which rows
were committed. -/
structure HandlerOutcome where
  response : Response
  conn : Option Bool
  connectAttempted : Bool
  cursorOpened : Bool
  cursorClosed : Bool
  rolledBack : Bool
  committed : List StockRecord

/-- Model of `lambda_handler`: runs the body and applies the `except`
chain (`Timeout` → 504, `HTTPError` → upstream status, other
`RequestException` → 500, `DatabaseError` → 500 with rollback when the
shared handle is set, any other exception → 500 with rollback when the
shared handle is set) and the `finally` clause (`cursor.close()`
whenever the cursor was opened). -/
def lambda_handler (env : HandlerEnv) : HandlerOutcome :=
  match runBody env with
  | (st, .ok resp) =>
    ⟨resp, st.conn, st.connectAttempted, st.cursorOpened, st.cursorOpened, false, st.committed⟩
  | (st, .error .timeout) =>
    ⟨⟨504, errBody "Request timeout - API took too long to respond"⟩,
     st.conn, st.connectAttempted, st.cursorOpened, st.cursorOpened, false, st.committed⟩
  | (st, .error (.httpError c d)) =>
    ⟨⟨c, errBody ("HTTP Error " ++ toString c ++ ": " ++ d)⟩,
     st.conn, st.connectAttempted, st.cursorOpened, st.cursorOpened, false, st.committed⟩
  | (st, .error (.requestFailed d)) =>
    ⟨⟨500, errBody ("Request failed: " ++ d)⟩,
     st.conn, st.connectAttempted, st.cursorOpened, st.cursorOpened, false, st.committed⟩
  | (st, .error (.exc (.dbError d))) =>
    ⟨⟨500, errBody ("Database error: " ++ d)⟩,
     st.conn, st.connectAttempted, st.cursorOpened, st.cursorOpened, st.conn.isSome, st.committed⟩
  | (st, .error (.exc (.py e))) =>
    ⟨⟨500, errBody ("Unexpected error: " ++ strOfPyError e)⟩,
     st.conn, st.connectAttempted, st.cursorOpened, st.cursorOpened, st.conn.isSome, st.committed⟩

/-- The identifier format exactly as the specification words it: the
stock code, a literal underscore, then the date as a four-digit year,
two-digit month and two-digit day separated by hyphens. -/
def specStockId (stock_code : String) (d : Date) : String :=
  stock_code ++ "_" ++ String.mk
    [digitChar (d.year / 1000 % 10), digitChar (d.year / 100 % 10),
     digitChar (d.year / 10 % 10), digitChar (d.year % 10), '-',
     digitChar (d.month / 10 % 10), digitChar (d.month % 10), '-',
     digitChar (d.day / 10 % 10), digitChar (d.day % 10)]

/-- The first required configuration key missing from the environment,
in the evaluation order of the keyword arguments of
`psycopg2.connect` (`DB_HOST`, `DB_NAME`, `DB_USER`, `DB_PASSWORD`);
`none` when all four are present.  Some key is missing exactly when
this is `some`. -/
def firstMissingVar (vars : EnvVars) : Option String :=
  if vars.db_host.isNone then some "DB_HOST"
  else if vars.db_name.isNone then some "DB_NAME"
  else if vars.db_user.isNone then some "DB_USER"
  else if vars.db_password.isNone then some "DB_PASSWORD"
  else none

/-- A well-formed feed item (concrete test fixture). -/
def itemGoodW : Json :=
  .obj [("Date", .str "2025-11-25T00:00:00"), ("StockCode", .str "BBCA"),
        ("StockName", .str "Bank Central Asia"), ("Previous", .num 100),
        ("Remarks", .str "")]

/-- A feed item whose date does not parse (concrete test fixture). -/
def itemBadDateW : Json :=
  .obj [("Date", .str "25-11-2025"), ("StockCode", .str "ANTM"),
        ("StockName", .str "Aneka Tambang")]

/-- A feed item missing the required `StockName` (concrete test fixture). -/
def itemNoNameW : Json :=
  .obj [("Date", .str "2025-11-25T00:00:00"), ("StockCode", .str "TLKM")]

/-- A baseline invocation environment in which every external effect
succeeds (concrete test fixture). -/
def cEnvOk : HandlerEnv :=
  { fetch := .success (.obj [("data", .arr [itemGoodW, itemBadDateW])])
    envVars := ⟨some "h", some "db", some "u", some "pw", none⟩
    connectOutcome := .ok ()
    execOutcome := .ok ()
    commitOutcome := .ok ()
    now := "2025-11-25 18:00:00"
    initialConn := none }

/-- Field list of a minimal well-formed feed item carrying none of the
optional fields (concrete test fixture). -/
def minFields : List (String × Json) :=
  [("Date", .str "2025-11-25T00:00:00"), ("StockCode", .str "BBCA"),
   ("StockName", .str "Bank Central Asia")]

/-- The record the normalizer produces for `minFields` (concrete test
fixture): every optional numeric field defaults to `0`, the two
optional text/date fields to `none`. -/
def minRec : StockRecord :=
  { id_stock := "BBCA_2025-11-25"
    stock_code := .str "BBCA"
    date := ⟨2025, 11, 25⟩
    stock_name := .str "Bank Central Asia"
    remarks := none
    previous := .num 0
    open_price := .num 0
    first_trade := .num 0
    high := .num 0
    low := .num 0
    close := .num 0
    change := .num 0
    volume := .num 0
    value := .num 0
    frequency := .num 0
    index_individual := .num 0
    offer := .num 0
    offer_volume := .num 0
    bid := .num 0
    bid_volume := .num 0
    listed_shares := .num 0
    tradeable_shares := .num 0
    weight_for_index := .num 0
    foreign_sell := .num 0
    foreign_buy := .num 0
    delisting_date := none
    non_regular_volume := .num 0
    non_regular_value := .num 0
    non_regular_frequency := .num 0 }

/-- A stored row for the natural key `(BBCA, 2025-11-25)` whose
`listed_shares` is `100` (concrete test fixture for the upsert). -/
def exOld : StockRecord :=
  { minRec with listed_shares := .num 100, volume := .num 7 }

/-- A later record for the same natural key with `listed_shares = 200`
and `volume = 9` (concrete test fixture for the upsert). -/
def exNew : StockRecord :=
  { minRec with listed_shares := .num 200, volume := .num 9 }

/-! Helper lemmas about the decimal formatting used by the
`strftime` model. -/

theorem digitChar_mem (n : Nat) :
    digitChar n ∈ ['0', '1', '2', '3', '4', '5', '6', '7', '8', '9'] := by
  rcases n with _ | _ | _ | _ | _ | _ | _ | _ | _ | n <;>
    first
    | decide
    | exact (by decide : ('9' : Char) ∈ ['0', '1', '2', '3', '4', '5', '6', '7', '8', '9'])

theorem digitChar_inj {a b : Nat} (ha : a < 10) (hb : b < 10)
    (h : digitChar a = digitChar b) : a = b := by
  interval_cases a <;> interval_cases b <;>
    first
    | rfl
    | exact absurd h (by decide)

theorem natStrAux_eq_digits (fuel : Nat) :
    ∀ n, n ≤ fuel → natStrAux fuel n = ((Nat.digits 10 n).map digitChar).reverse := by
  induction fuel with
  | zero =>
    intro n hn
    interval_cases n
    simp [natStrAux]
  | succ f ih =>
    intro n hn
    match n with
    | 0 => simp [natStrAux]
    | m + 1 =>
      have hdiv : (m + 1) / 10 < m + 1 := Nat.div_lt_self (Nat.succ_pos m) (by norm_num)
      rw [natStrAux, ih ((m + 1) / 10) (by omega),
        Nat.digits_def' (by norm_num : 1 < 10) (Nat.succ_pos m)]
      simp

theorem natStr_eq_digits {n : Nat} (h : n ≠ 0) :
    natStr n = ((Nat.digits 10 n).map digitChar).reverse := by
  rw [natStr, if_neg h, natStrAux_eq_digits n n le_rfl]

theorem mem_natStr {c : Char} {n : Nat} (h : c ∈ natStr n) :
    c ∈ ['0', '1', '2', '3', '4', '5', '6', '7', '8', '9'] := by
  by_cases h0 : n = 0
  · subst h0
    simp [natStr] at h
    subst h
    decide
  · rw [natStr_eq_digits h0] at h
    rw [List.mem_reverse, List.mem_map] at h
    obtain ⟨d, _, rfl⟩ := h
    exact digitChar_mem d

theorem natStr_ne_underscore {c : Char} {n : Nat} (h : c ∈ natStr n) : c ≠ '_' := by
  intro hc
  subst hc
  have := mem_natStr h
  simp at this

theorem map_digitChar_inj :
    ∀ {l1 l2 : List Nat}, (∀ x ∈ l1, x < 10) → (∀ x ∈ l2, x < 10) →
      l1.map digitChar = l2.map digitChar → l1 = l2 := by
  intro l1
  induction l1 with
  | nil =>
    intro l2 _ _ h
    cases l2 with
    | nil => rfl
    | cons b bs => simp at h
  | cons a as ih =>
    intro l2 h1 h2 h
    cases l2 with
    | nil => simp at h
    | cons b bs =>
      simp only [List.map_cons, List.cons.injEq] at h
      have ha : a = b :=
        digitChar_inj (h1 a (List.mem_cons_self a as)) (h2 b (List.mem_cons_self b bs)) h.1
      have hs : as = bs :=
        ih (fun x hx => h1 x (List.mem_cons_of_mem a hx))
          (fun x hx => h2 x (List.mem_cons_of_mem b hx)) h.2
      rw [ha, hs]

theorem natStr_inj {a b : Nat} (h : natStr a = natStr b) : a = b := by
  have single : ∀ m : Nat, m ≠ 0 → natStr m = ['0'] → False := by
    intro m hm he
    rw [natStr_eq_digits hm] at he
    have he' : (Nat.digits 10 m).map digitChar = ['0'] := by
      have := congrArg List.reverse he
      simpa using this
    rcases hd : Nat.digits 10 m with _ | ⟨d, rest⟩
    · rw [hd] at he'; simp at he'
    · rw [hd] at he'
      simp only [List.map_cons, List.cons.injEq] at he'
      have hd10 : d < 10 :=
        Nat.digits_lt_base (by norm_num) (hd ▸ List.mem_cons_self d rest)
      have hd0 : d = 0 := digitChar_inj hd10 (by norm_num) (by simpa [digitChar] using he'.1)
      have hrest : rest = [] := by
        rcases rest with _ | ⟨x, xs⟩
        · rfl
        · simp at he'
      have : m = 0 := by
        have := Nat.ofDigits_digits 10 m
        rw [hd, hd0, hrest] at this
        simpa [Nat.ofDigits] using this.symm
      exact hm this
  by_cases ha : a = 0 <;> by_cases hb : b = 0
  · rw [ha, hb]
  · exact absurd ((by simpa [natStr, ha] using h.symm : natStr b = ['0'])) (fun he => (single b hb he).elim)
  · exact absurd ((by simpa [natStr, hb] using h : natStr a = ['0'])) (fun he => (single a ha he).elim)
  · rw [natStr_eq_digits ha, natStr_eq_digits hb] at h
    have h' := congrArg List.reverse h
    simp only [List.reverse_reverse] at h'
    have hdig : Nat.digits 10 a = Nat.digits 10 b :=
      map_digitChar_inj (fun x hx => Nat.digits_lt_base (by norm_num) hx)
        (fun x hx => Nat.digits_lt_base (by norm_num) hx) h'
    calc a = Nat.ofDigits 10 (Nat.digits 10 a) := (Nat.ofDigits_digits 10 a).symm
      _ = Nat.ofDigits 10 (Nat.digits 10 b) := by rw [hdig]
      _ = b := Nat.ofDigits_digits 10 b

theorem append_sep_inj (sep : Char) :
    ∀ (r1 r2 t1 t2 : List Char), (∀ c ∈ r1, c ≠ sep) → (∀ c ∈ r2, c ≠ sep) →
      r1 ++ sep :: t1 = r2 ++ sep :: t2 → r1 = r2 ∧ t1 = t2 := by
  intro r1
  induction r1 with
  | nil =>
    intro r2 t1 t2 _ h2 h
    cases r2 with
    | nil =>
      simp only [List.nil_append, List.cons.injEq] at h
      exact ⟨rfl, h.2⟩
    | cons c r2' =>
      simp only [List.nil_append, List.cons_append, List.cons.injEq] at h
      exact absurd h.1.symm (h2 c (List.mem_cons_self c r2'))
  | cons c r1' ih =>
    intro r2 t1 t2 h1 h2 h
    cases r2 with
    | nil =>
      simp only [List.cons_append, List.nil_append, List.cons.injEq] at h
      exact absurd h.1 (h1 c (List.mem_cons_self c r1'))
    | cons d r2' =>
      simp only [List.cons_append, List.cons.injEq] at h
      obtain ⟨hr, ht⟩ :=
        ih r2' t1 t2 (fun x hx => h1 x (List.mem_cons_of_mem c hx))
          (fun x hx => h2 x (List.mem_cons_of_mem d hx)) h.2
      exact ⟨by rw [h.1, hr], ht⟩

theorem pad2c_inj {m n : Nat} (hm : m < 100) (hn : n < 100)
    (h : pad2c m = pad2c n) : m = n := by
  simp only [pad2c, List.cons.injEq, and_true] at h
  have e1 : m / 10 % 10 = n / 10 % 10 :=
    digitChar_inj (Nat.mod_lt _ (by norm_num)) (Nat.mod_lt _ (by norm_num)) h.1
  have e2 : m % 10 = n % 10 :=
    digitChar_inj (Nat.mod_lt _ (by norm_num)) (Nat.mod_lt _ (by norm_num)) h.2
  omega

theorem daysInMonth_le (y m : Nat) : daysInMonth y m ≤ 31 := by
  unfold daysInMonth
  split
  · split <;> omega
  all_goals omega

/-- Decomposition of the formatted id into its month/day tail (of
fixed length six) and its variable-length `stock_code ++ "_" ++ year`
head. -/
theorem generate_stock_id_data (S : String) (D : Date) :
    (generate_stock_id S D).data
      = (S.data ++ '_' :: natStr D.year)
        ++ '-' :: (pad2c D.month ++ '-' :: pad2c D.day) := by
  simp [generate_stock_id, strftimeYmd, dateChars, String.data_append]

/-- Claim C6 support: the derivation is injective over the pair
`(stock code, date)` for calendar dates. -/
theorem generate_stock_id_inj {S1 S2 : String} {D1 D2 : Date}
    (h1 : validDate D1 = true) (h2 : validDate D2 = true)
    (h : generate_stock_id S1 D1 = generate_stock_id S2 D2) : S1 = S2 ∧ D1 = D2 := by
  simp only [validDate, Bool.and_eq_true, decide_eq_true_eq] at h1 h2
  have hd : (generate_stock_id S1 D1).data = (generate_stock_id S2 D2).data :=
    congrArg String.data h
  rw [generate_stock_id_data, generate_stock_id_data] at hd
  have htail :
      (S1.data ++ '_' :: natStr D1.year) = (S2.data ++ '_' :: natStr D2.year)
      ∧ '-' :: (pad2c D1.month ++ '-' :: pad2c D1.day)
          = '-' :: (pad2c D2.month ++ '-' :: pad2c D2.day) :=
    List.append_inj' hd (by simp [pad2c])
  have hmd := htail.2
  simp only [List.cons.injEq, true_and] at hmd
  have hmonthday : pad2c D1.month = pad2c D2.month ∧ '-' :: pad2c D1.day = '-' :: pad2c D2.day :=
    List.append_inj hmd (by simp [pad2c])
  have hmonth : D1.month = D2.month :=
    pad2c_inj (by omega) (by omega) hmonthday.1
  have hday : D1.day = D2.day := by
    have b1 : D1.day < 100 := by
      have := daysInMonth_le D1.year D1.month
      omega
    have b2 : D2.day < 100 := by
      have := daysInMonth_le D2.year D2.month
      omega
    have := hmonthday.2
    simp only [List.cons.injEq, true_and] at this
    exact pad2c_inj b1 b2 this
  have hhead := htail.1
  have hrev := congrArg List.reverse hhead
  simp only [List.reverse_append, List.reverse_cons, List.append_assoc,
    List.singleton_append] at hrev
  have hsep :=
    append_sep_inj '_' (natStr D1.year).reverse (natStr D2.year).reverse
      S1.data.reverse S2.data.reverse
      (fun c hc => natStr_ne_underscore (List.mem_reverse.mp hc))
      (fun c hc => natStr_ne_underscore (List.mem_reverse.mp hc)) hrev
  have hyear : D1.year = D2.year :=
    natStr_inj (List.reverse_injective hsep.1)
  have hS : S1 = S2 :=
    String.ext (List.reverse_injective hsep.2)
  refine ⟨hS, ?_⟩
  cases D1
  cases D2
  simp_all

/-- Support for the year-width analysis: for a four-digit year the
unpadded rendering has exactly the four decimal digits. -/
theorem natStr_four_digits {y : Nat} (h1 : 1000 ≤ y) (h2 : y ≤ 9999) :
    natStr y = [digitChar (y / 1000 % 10), digitChar (y / 100 % 10),
      digitChar (y / 10 % 10), digitChar (y % 10)] := by
  have hy : y ≠ 0 := by omega
  rw [natStr_eq_digits hy]
  have d1 : Nat.digits 10 y = y % 10 :: Nat.digits 10 (y / 10) :=
    Nat.digits_def' (by norm_num) (by omega)
  have d2 : Nat.digits 10 (y / 10) = y / 10 % 10 :: Nat.digits 10 (y / 100) := by
    rw [Nat.digits_def' (by norm_num : (1:ℕ) < 10) (by omega), Nat.div_div_eq_div_mul]
  have d3 : Nat.digits 10 (y / 100) = y / 100 % 10 :: Nat.digits 10 (y / 1000) := by
    rw [Nat.digits_def' (by norm_num : (1:ℕ) < 10) (by omega), Nat.div_div_eq_div_mul]
  have d4 : Nat.digits 10 (y / 1000) = [y / 1000 % 10] := by
    rw [Nat.digits_def' (by norm_num : (1:ℕ) < 10) (by omega), Nat.div_div_eq_div_mul]
    have : y / 10000 = 0 := by omega
    rw [this]
    simp
  rw [d1, d2, d3, d4]
  simp

/-- Claim C6 (amended): `generate_stock_id` is deterministic (it is a
pure function of `(S, D)`); for every calendar date whose year has
four digits (`1000 ≤ year`, which holds for every realistic trade
date) the result is exactly the stock code, a literal underscore, and
the date as four-digit year, two-digit month, two-digit day separated
by hyphens; and the derivation is injective over `(S, D)` pairs.  For
valid years below `1000` the year is rendered by `strftime` without
zero padding, so the four-digit-year clause of the original claim
fails there (see the counterexample), while injectivity still holds. -/
theorem generate_stock_id_spec :
    (∀ (S : String) (D : Date), validDate D = true → 1000 ≤ D.year →
        generate_stock_id S D = specStockId S D)
    ∧ (∀ (S1 S2 : String) (D1 D2 : Date), validDate D1 = true → validDate D2 = true →
        generate_stock_id S1 D1 = generate_stock_id S2 D2 → S1 = S2 ∧ D1 = D2) := by
  constructor
  · intro S D hv hy
    have hv' := hv
    simp only [validDate, Bool.and_eq_true, decide_eq_true_eq] at hv'
    have hchars : dateChars D
        = [digitChar (D.year / 1000 % 10), digitChar (D.year / 100 % 10),
           digitChar (D.year / 10 % 10), digitChar (D.year % 10), '-',
           digitChar (D.month / 10 % 10), digitChar (D.month % 10), '-',
           digitChar (D.day / 10 % 10), digitChar (D.day % 10)] := by
      rw [dateChars, natStr_four_digits hy (by omega)]
      simp [pad2c]
    rw [generate_stock_id, specStockId, strftimeYmd, hchars]
  · exact fun S1 S2 D1 D2 h1 h2 h => generate_stock_id_inj h1 h2 h

/-- Witness for the amended claim C6 at concrete inputs: the format
equation at `("BBCA", 2025-11-25)` and injectivity at a leap-day pair. -/
theorem generate_stock_id_spec_witness :
    generate_stock_id "BBCA" ⟨2025, 11, 25⟩ = specStockId "BBCA" ⟨2025, 11, 25⟩
    ∧ ("ANTM" = "ANTM" ∧ (⟨2024, 2, 29⟩ : Date) = ⟨2024, 2, 29⟩) :=
  ⟨generate_stock_id_spec.1 "BBCA" ⟨2025, 11, 25⟩ (by decide) (by decide),
   generate_stock_id_spec.2 "ANTM" "ANTM" ⟨2024, 2, 29⟩ ⟨2024, 2, 29⟩
     (by decide) (by decide) rfl⟩

/-- Counterexample to claim C6 as stated: the calendar date 0005-01-02
is reachable from the feed (the string `"0005-01-02T00:00:00"` parses),
yet the derived id renders the year without zero padding, so the
output is not of the exact four-digit-year format the claim asserts
for all calendar dates. -/
theorem generate_stock_id_not_four_digit :
    parseDateTime "0005-01-02T00:00:00" = some ⟨5, 1, 2⟩
    ∧ validDate ⟨5, 1, 2⟩ = true
    ∧ generate_stock_id "BBCA" ⟨5, 1, 2⟩ = "BBCA_5-01-02"
    ∧ generate_stock_id "BBCA" ⟨5, 1, 2⟩ ≠ specStockId "BBCA" ⟨5, 1, 2⟩ :=
  ⟨by decide, by decide, rfl, by decide⟩

/-! Lemmas about the `ON CONFLICT DO UPDATE` model. -/

theorem keyMatches_merge (row : Row) (r : StockRecord) (ts : Option String) :
    keyMatches ⟨mergeOnConflict row.stored r, ts⟩ r = keyMatches row r := rfl

theorem findRow_upsertOne (now : String) :
    ∀ (t : List Row) (r : StockRecord) (old : Row), findRow t r = some old →
      findRow (upsertOne now t r) r = some ⟨mergeOnConflict old.stored r, some now⟩ := by
  intro t
  induction t with
  | nil =>
    intro r old h
    simp [findRow] at h
  | cons row rest ih =>
    intro r old h
    rw [findRow] at h
    cases hk : keyMatches row r with
    | true =>
      rw [hk] at h
      simp only [if_true] at h
      injection h with h
      subst h
      rw [upsertOne, if_pos hk, findRow]
      rw [keyMatches_merge row r (some now), hk]
      simp
    | false =>
      rw [hk] at h
      simp only [Bool.false_eq_true, if_false] at h
      rw [upsertOne, if_neg (by simp [hk]), findRow, if_neg (by simp [hk])]
      exact ih r old h

/-- Claim C1 (amended): when the batch upsert hits a conflict on
`(stock_code, date)`, the update path overwrites `id_stock`,
`stock_name`, `remarks` and the sixteen price/volume/value/frequency/
index/offer/bid/foreign-trade columns with the new record's values and
refreshes `updated_at`; however `listed_shares`, `tradeable_shares`,
`weight_for_index`, `delisting_date`, `non_regular_volume`,
`non_regular_value` and `non_regular_frequency` are absent from the
`DO UPDATE SET` list and keep their stored values, and the natural key
is unchanged. -/
theorem upsert_conflict_updates_listed_columns (now : String) (t : List Row)
    (r : StockRecord) (old : Row) (h : findRow t r = some old) :
    findRow (upsertOne now t r) r = some ⟨mergeOnConflict old.stored r, some now⟩
    ∧ (mergeOnConflict old.stored r).id_stock = r.id_stock
    ∧ (mergeOnConflict old.stored r).stock_name = r.stock_name
    ∧ (mergeOnConflict old.stored r).remarks = r.remarks
    ∧ (mergeOnConflict old.stored r).previous = r.previous
    ∧ (mergeOnConflict old.stored r).open_price = r.open_price
    ∧ (mergeOnConflict old.stored r).first_trade = r.first_trade
    ∧ (mergeOnConflict old.stored r).high = r.high
    ∧ (mergeOnConflict old.stored r).low = r.low
    ∧ (mergeOnConflict old.stored r).close = r.close
    ∧ (mergeOnConflict old.stored r).change = r.change
    ∧ (mergeOnConflict old.stored r).volume = r.volume
    ∧ (mergeOnConflict old.stored r).value = r.value
    ∧ (mergeOnConflict old.stored r).frequency = r.frequency
    ∧ (mergeOnConflict old.stored r).index_individual = r.index_individual
    ∧ (mergeOnConflict old.stored r).offer = r.offer
    ∧ (mergeOnConflict old.stored r).offer_volume = r.offer_volume
    ∧ (mergeOnConflict old.stored r).bid = r.bid
    ∧ (mergeOnConflict old.stored r).bid_volume = r.bid_volume
    ∧ (mergeOnConflict old.stored r).foreign_sell = r.foreign_sell
    ∧ (mergeOnConflict old.stored r).foreign_buy = r.foreign_buy
    ∧ (mergeOnConflict old.stored r).listed_shares = old.stored.listed_shares
    ∧ (mergeOnConflict old.stored r).tradeable_shares = old.stored.tradeable_shares
    ∧ (mergeOnConflict old.stored r).weight_for_index = old.stored.weight_for_index
    ∧ (mergeOnConflict old.stored r).delisting_date = old.stored.delisting_date
    ∧ (mergeOnConflict old.stored r).non_regular_volume = old.stored.non_regular_volume
    ∧ (mergeOnConflict old.stored r).non_regular_value = old.stored.non_regular_value
    ∧ (mergeOnConflict old.stored r).non_regular_frequency = old.stored.non_regular_frequency
    ∧ (mergeOnConflict old.stored r).stock_code = old.stored.stock_code
    ∧ (mergeOnConflict old.stored r).date = old.stored.date := by
  exact ⟨findRow_upsertOne now t r old h, rfl, rfl, rfl, rfl, rfl, rfl, rfl, rfl, rfl,
    rfl, rfl, rfl, rfl, rfl, rfl, rfl, rfl, rfl, rfl, rfl, rfl, rfl, rfl, rfl, rfl,
    rfl, rfl, rfl, rfl⟩

/-- Witness for the amended claim C1 at a concrete one-row table and a
concrete conflicting record. -/
theorem upsert_conflict_updates_listed_columns_witness :
    findRow (upsertOne "t2" [⟨exOld, none⟩] exNew) exNew
      = some ⟨mergeOnConflict exOld exNew, some "t2"⟩
    ∧ (mergeOnConflict exOld exNew).volume = exNew.volume
    ∧ (mergeOnConflict exOld exNew).listed_shares = exOld.listed_shares := by
  obtain ⟨h0, h1, h2, h3, h4, h5, h6, h7, h8, h9, h10, h11, h12, h13, h14, h15, h16,
      h17, h18, h19, h20, h21, hrest⟩ :=
    upsert_conflict_updates_listed_columns "t2" [⟨exOld, none⟩] exNew ⟨exOld, none⟩ rfl
  exact ⟨h0, h11, h21⟩

/-- Counterexample to claim C1 as stated: for the key `(BBCA,
2025-11-25)` the stored row has `listed_shares = 100`; after upserting
a conflicting record with `listed_shares = 200`, the stored row still
has `listed_shares = 100` — a mutable non-key field kept its old
value, because `listed_shares` is not in the `DO UPDATE SET` list. -/
theorem upsert_keeps_old_listed_shares :
    keyMatches ⟨exOld, none⟩ exNew = true
    ∧ exOld.listed_shares = .num 100
    ∧ exNew.listed_shares = .num 200
    ∧ upsertOne "t2" [⟨exOld, none⟩] exNew
        = [⟨mergeOnConflict exOld exNew, some "t2"⟩]
    ∧ (mergeOnConflict exOld exNew).listed_shares = .num 100
    ∧ (mergeOnConflict exOld exNew).listed_shares ≠ exNew.listed_shares := by
  refine ⟨rfl, rfl, rfl, rfl, rfl, ?_⟩
  intro h
  have h' : (100 : Rat) = 200 := by
    have hh : Json.num 100 = Json.num 200 := h
    injection hh
  norm_num at h'

/-! Lemmas about the handler state machine. -/

/-- Whenever the body ends in an exception, no rows were committed in
this invocation (the commit is the last effect before the success
return). -/
theorem runBody_error_committed {env : HandlerEnv} {st : St} {e : BodyExc}
    (h : runBody env = (st, .error e)) : st.committed = [] := by
  unfold runBody at h
  repeat' split at h
  all_goals injection h with h1 h2
  all_goals
    first
    | (subst h1; rfl)
    | cases h2

/-- Claim C3: on a database-layer failure (connection acquisition,
statement execution, or commit — exactly the origins of a
`psycopg2.DatabaseError` in the body), the handler returns status 500
with body `{"error": "Database error: <detail>"}`, rolls back exactly
when the shared connection handle exists, and commits nothing. -/
theorem database_error_rolls_back (env : HandlerEnv) (st : St) (d : String)
    (h : runBody env = (st, .error (.exc (.dbError d)))) :
    (lambda_handler env).response = ⟨500, errBody ("Database error: " ++ d)⟩
    ∧ (lambda_handler env).rolledBack = (lambda_handler env).conn.isSome
    ∧ (lambda_handler env).committed = [] := by
  have hc := runBody_error_committed h
  unfold lambda_handler
  rw [h]
  exact ⟨rfl, rfl, hc⟩

/-- Witness for claim C3: a commit failure in an otherwise successful
invocation yields 500, a rollback (the handle exists), and no
committed rows. -/
theorem database_error_rolls_back_witness :
    (lambda_handler { cEnvOk with commitOutcome := .error "deadlock detected" }).response
      = ⟨500, errBody "Database error: deadlock detected"⟩
    ∧ (lambda_handler { cEnvOk with commitOutcome := .error "deadlock detected" }).rolledBack
      = (lambda_handler { cEnvOk with commitOutcome := .error "deadlock detected" }).conn.isSome
    ∧ (lambda_handler { cEnvOk with commitOutcome := .error "deadlock detected" }).committed = [] :=
  database_error_rolls_back { cEnvOk with commitOutcome := .error "deadlock detected" }
    ⟨some false, true, true, []⟩ "deadlock detected" rfl

/-- Claim C4: a decoded mapping without a `data` key, or whose `data`
is the empty list, makes the handler return 400 with body
`{"error": "No data received from API"}` before any database
connection is attempted, and nothing is committed. -/
theorem no_data_returns_400 (env : HandlerEnv) (fields : List (String × Json))
    (hfetch : env.fetch = .success (.obj fields))
    (hdata : lookupField fields "data" = none ∨ lookupField fields "data" = some (.arr [])) :
    (lambda_handler env).response = ⟨400, errBody "No data received from API"⟩
    ∧ (lambda_handler env).connectAttempted = false
    ∧ (lambda_handler env).committed = [] := by
  have hrun : runBody env
      = (initSt env.initialConn, .ok ⟨400, errBody "No data received from API"⟩) := by
    unfold runBody
    rw [hfetch]
    rcases hdata with h | h
    · simp [pyGetAttrData, h]
    · simp [pyGetAttrData, h, truthy]
  unfold lambda_handler
  rw [hrun]
  exact ⟨rfl, rfl, rfl⟩

/-- Witness for claim C4 at a concrete body whose `data` is `[]`. -/
theorem no_data_returns_400_witness :
    (lambda_handler { cEnvOk with fetch := .success (.obj [("data", .arr [])]) }).response
      = ⟨400, errBody "No data received from API"⟩
    ∧ (lambda_handler { cEnvOk with fetch := .success (.obj [("data", .arr [])]) }).connectAttempted
      = false
    ∧ (lambda_handler { cEnvOk with fetch := .success (.obj [("data", .arr [])]) }).committed = [] :=
  no_data_returns_400 { cEnvOk with fetch := .success (.obj [("data", .arr [])]) }
    [("data", .arr [])] rfl (Or.inr rfl)

/-- Claim C5: when the HTTP fetch times out, the handler returns 504
with body `{"error": "Request timeout - API took too long to
respond"}`; no database connection is attempted (the fetch precedes
connection acquisition) and nothing is committed. -/
theorem timeout_returns_504 (env : HandlerEnv) :
    (lambda_handler { env with fetch := .timeout }).response
      = ⟨504, errBody "Request timeout - API took too long to respond"⟩
    ∧ (lambda_handler { env with fetch := .timeout }).connectAttempted = false
    ∧ (lambda_handler { env with fetch := .timeout }).committed = [] :=
  ⟨rfl, rfl, rfl⟩

/-- Witness for claim C5 at the concrete baseline environment. -/
theorem timeout_returns_504_witness :
    (lambda_handler { cEnvOk with fetch := .timeout }).response
      = ⟨504, errBody "Request timeout - API took too long to respond"⟩
    ∧ (lambda_handler { cEnvOk with fetch := .timeout }).connectAttempted = false
    ∧ (lambda_handler { cEnvOk with fetch := .timeout }).committed = [] :=
  timeout_returns_504 cEnvOk

/-- Claim C8: on every exit path, if the cursor was opened it has been
closed by the `finally` clause when the invocation returns. -/
theorem cursor_always_closed (env : HandlerEnv)
    (h : (lambda_handler env).cursorOpened = true) :
    (lambda_handler env).cursorClosed = true := by
  have key : (lambda_handler env).cursorClosed = (lambda_handler env).cursorOpened := by
    unfold lambda_handler
    rcases hr : runBody env with ⟨st, r⟩
    rcases r with e | resp
    · rcases e with _ | ⟨c, d⟩ | d | e
      · rfl
      · rfl
      · rfl
      · rcases e with e | d <;> rfl
    · rfl
  rw [key, h]

/-- Witness for claim C8: in a fully successful invocation the cursor
is opened and closed. -/
theorem cursor_always_closed_witness :
    (lambda_handler cEnvOk).cursorOpened = true
    ∧ (lambda_handler cEnvOk).cursorClosed = true :=
  ⟨rfl, cursor_always_closed cEnvOk rfl⟩

/-! Classification of the per-item normalization on in-scope items. -/

theorem except_toOption_error {ε : Type} {α : Type} (e : ε) :
    (Except.error e : Except ε α).toOption = none := rfl

theorem except_toOption_ok {ε : Type} {α : Type} (a : α) :
    (Except.ok a : Except ε α).toOption = some a := rfl

/-- On a mapping item whose `Date` field (when present) is a string,
normalization succeeds exactly on well-formed items, and the only
possible exceptions are `ValueError` and `KeyError`. -/
theorem normalizeItem_classify (item : Json) (hs : itemScopeB item = true) :
    (normalizeItem item).isOk = wellFormedItem item
    ∧ (∀ m, normalizeItem item ≠ .error (.typeError m))
    ∧ (∀ m, normalizeItem item ≠ .error (.attributeError m)) := by
  cases item with
  | null => simp [itemScopeB] at hs
  | bool b => simp [itemScopeB] at hs
  | num q => simp [itemScopeB] at hs
  | str s => simp [itemScopeB] at hs
  | arr l => simp [itemScopeB] at hs
  | obj fields =>
    rcases hd : lookupField fields "Date" with _ | v
    · refine ⟨?_, ?_, ?_⟩ <;>
        simp [normalizeItem, wellFormedItem, pySubscript, hd, Except.isOk, Except.toBool]
    · rcases v with _ | b | q | s | l | fs
      · simp [itemScopeB, hd] at hs
      · simp [itemScopeB, hd] at hs
      · simp [itemScopeB, hd] at hs
      · rcases hp : parseDateTime s with _ | dt
        · refine ⟨?_, ?_, ?_⟩ <;>
            simp [normalizeItem, wellFormedItem, pySubscript, strptimeDate, hd, hp, Except.isOk, Except.toBool]
        · rcases hc : lookupField fields "StockCode" with _ | code
          · refine ⟨?_, ?_, ?_⟩ <;>
              simp [normalizeItem, wellFormedItem, pySubscript, strptimeDate, hd, hp, hc,
                Except.isOk, Except.toBool]
          · rcases hn : lookupField fields "StockName" with _ | nm
            · refine ⟨?_, ?_, ?_⟩ <;>
                simp [normalizeItem, wellFormedItem, pySubscript, strptimeDate, hd, hp, hc, hn,
                  Except.isOk, Except.toBool]
            · refine ⟨?_, ?_, ?_⟩ <;>
                simp [normalizeItem, wellFormedItem, pySubscript, strptimeDate, hd, hp, hc, hn,
                  Except.isOk, Except.toBool]
      · simp [itemScopeB, hd] at hs
      · simp [itemScopeB, hd] at hs

/-- The normalization loop on in-scope items: it never aborts, keeps
exactly the well-formed items in feed order, and the kept count plus
the malformed count is the feed length. -/
theorem buildBatch_scope :
    ∀ items : List Json, (∀ i ∈ items, itemScopeB i = true) →
      buildBatch items = .ok (items.filterMap fun i => (normalizeItem i).toOption)
      ∧ (∀ i ∈ items, ((normalizeItem i).toOption.isSome) = wellFormedItem i)
      ∧ (items.filterMap fun i => (normalizeItem i).toOption).length
          + (items.filter fun i => !wellFormedItem i).length = items.length := by
  intro items
  induction items with
  | nil => intro _; exact ⟨rfl, by simp, by simp⟩
  | cons item rest ih =>
    intro hs
    obtain ⟨hb, hmem, hlen⟩ := ih (fun i hi => hs i (List.mem_cons_of_mem item hi))
    have hcl := normalizeItem_classify item (hs item (List.mem_cons_self item rest))
    rcases hno : normalizeItem item with e | r
    · have hwf : wellFormedItem item = false := by
        have h1 := hcl.1
        rw [hno] at h1
        simpa [Except.isOk, Except.toBool] using h1.symm
      rcases e with m | m | m | m
      · refine ⟨?_, ?_, ?_⟩
        · simpa [buildBatch, hno, List.filterMap_cons, except_toOption_error] using hb
        · intro i hi
          rcases List.mem_cons.mp hi with rfl | hi'
          · rw [hno]; simp [except_toOption_error, hwf]
          · exact hmem i hi'
        · simp [List.filterMap_cons, List.filter_cons, hno, except_toOption_error, hwf]
          omega
      · refine ⟨?_, ?_, ?_⟩
        · simpa [buildBatch, hno, List.filterMap_cons, except_toOption_error] using hb
        · intro i hi
          rcases List.mem_cons.mp hi with rfl | hi'
          · rw [hno]; simp [except_toOption_error, hwf]
          · exact hmem i hi'
        · simp [List.filterMap_cons, List.filter_cons, hno, except_toOption_error, hwf]
          omega
      · exact absurd hno (hcl.2.1 m)
      · exact absurd hno (hcl.2.2 m)
    · have hwf : wellFormedItem item = true := by
        have h1 := hcl.1
        rw [hno] at h1
        simpa [Except.isOk, Except.toBool] using h1.symm
      refine ⟨?_, ?_, ?_⟩
      · simp [buildBatch, hno, hb, List.filterMap_cons, except_toOption_ok]
      · intro i hi
        rcases List.mem_cons.mp hi with rfl | hi'
        · rw [hno]; simp [except_toOption_ok, hwf]
        · exact hmem i hi'
      · simp [List.filterMap_cons, List.filter_cons, hno, except_toOption_ok, hwf]
        omega

/-! Reduction lemmas for the three interesting paths through the
handler body. -/

/-- The fully successful path: fetch delivers a mapping whose `data`
is a non-empty list, the connection is acquired, the batch (possibly
empty) is executed and the commit succeeds. -/
theorem runBody_success (env : HandlerEnv) (fields : List (String × Json))
    (items : List Json) (batch : List StockRecord)
    (hfetch : env.fetch = .success (.obj fields))
    (hdata : lookupField fields "data" = some (.arr items))
    (hne : items ≠ [])
    (hacq : get_db_connection env.envVars env.connectOutcome env.initialConn
      = (some false, .ok ()))
    (hb : buildBatch items = .ok batch)
    (hexec : env.execOutcome = .ok ())
    (hcommit : env.commitOutcome = .ok ()) :
    runBody env = (⟨some false, true, true, batch⟩,
      .ok ⟨200, .obj [("message", .str "Data processed successfully"),
                      ("records_processed", .num batch.length),
                      ("timestamp", .str env.now)]⟩) := by
  obtain ⟨a, l, rfl⟩ : ∃ a l, items = a :: l := by
    cases items with
    | nil => exact absurd rfl hne
    | cons a l => exact ⟨a, l, rfl⟩
  simp [runBody, hfetch, pyGetAttrData, hdata, truthy, pyLen, iterElems, hacq, hb, hexec,
    hcommit, connSt]

/-- The path on which the loop raises an exception that is not caught
per item: the invocation aborts with that exception. -/
theorem runBody_batch_abort (env : HandlerEnv) (fields : List (String × Json))
    (items : List Json) (e : PyError)
    (hfetch : env.fetch = .success (.obj fields))
    (hdata : lookupField fields "data" = some (.arr items))
    (hne : items ≠ [])
    (hacq : get_db_connection env.envVars env.connectOutcome env.initialConn
      = (some false, .ok ()))
    (hb : buildBatch items = .error e) :
    runBody env = (connSt (some false), .error (.exc (.py e))) := by
  obtain ⟨a, l, rfl⟩ : ∃ a l, items = a :: l := by
    cases items with
    | nil => exact absurd rfl hne
    | cons a l => exact ⟨a, l, rfl⟩
  simp [runBody, hfetch, pyGetAttrData, hdata, truthy, pyLen, iterElems, hacq, hb]

/-- The path on which connection acquisition fails: the exception
reaches the handler before the cursor is opened. -/
theorem runBody_conn_error (env : HandlerEnv) (fields : List (String × Json))
    (items : List Json) (c : Option Bool) (e : Exc)
    (hfetch : env.fetch = .success (.obj fields))
    (hdata : lookupField fields "data" = some (.arr items))
    (hne : items ≠ [])
    (hconn : get_db_connection env.envVars env.connectOutcome env.initialConn
      = (c, .error e)) :
    runBody env = (⟨c, true, false, []⟩, .error (.exc e)) := by
  obtain ⟨a, l, rfl⟩ : ∃ a l, items = a :: l := by
    cases items with
    | nil => exact absurd rfl hne
    | cons a l => exact ⟨a, l, rfl⟩
  simp [runBody, hfetch, pyGetAttrData, hdata, truthy, pyLen, hconn]

/-- Claim C2: on a feed of mapping items (with string dates where
present), the loop never aborts, the accumulated batch holds exactly
the well-formed items in feed order (an item is kept exactly when it
is well formed, so exactly the K malformed ones are skipped), the
batch size is N − K, and a successful run returns 200 with
`records_processed` equal to the batch size N − K. -/
theorem normalization_skips_exactly_malformed
    (env : HandlerEnv) (fields : List (String × Json)) (items : List Json)
    (hne : items ≠ [])
    (hs : ∀ i ∈ items, itemScopeB i = true)
    (hfetch : env.fetch = .success (.obj fields))
    (hdata : lookupField fields "data" = some (.arr items))
    (hacq : get_db_connection env.envVars env.connectOutcome env.initialConn
      = (some false, .ok ()))
    (hexec : env.execOutcome = .ok ())
    (hcommit : env.commitOutcome = .ok ()) :
    buildBatch items = .ok (items.filterMap fun i => (normalizeItem i).toOption)
    ∧ (∀ i ∈ items, ((normalizeItem i).toOption.isSome) = wellFormedItem i)
    ∧ (items.filterMap fun i => (normalizeItem i).toOption).length
        = items.length - (items.filter fun i => !wellFormedItem i).length
    ∧ (lambda_handler env).response
        = ⟨200, .obj [("message", .str "Data processed successfully"),
                      ("records_processed",
                       .num ((items.filterMap fun i => (normalizeItem i).toOption).length)),
                      ("timestamp", .str env.now)]⟩
    ∧ (lambda_handler env).committed
        = (items.filterMap fun i => (normalizeItem i).toOption) := by
  obtain ⟨hb, hmem, hlen⟩ := buildBatch_scope items hs
  have hrun := runBody_success env fields items _ hfetch hdata hne hacq hb hexec hcommit
  refine ⟨hb, hmem, by omega, ?_, ?_⟩
  · unfold lambda_handler
    rw [hrun]
  · unfold lambda_handler
    rw [hrun]

/-- Witness for claim C2 on a concrete two-item feed with one
malformed item: the batch keeps exactly the well-formed item and the
response reports one processed record. -/
theorem normalization_skips_exactly_malformed_witness :
    buildBatch [itemGoodW, itemBadDateW]
      = .ok ([itemGoodW, itemBadDateW].filterMap fun i => (normalizeItem i).toOption)
    ∧ ([itemGoodW, itemBadDateW].filterMap fun i => (normalizeItem i).toOption).length
        = ([itemGoodW, itemBadDateW] : List Json).length
          - ([itemGoodW, itemBadDateW].filter fun i => !wellFormedItem i).length
    ∧ (lambda_handler cEnvOk).response
        = ⟨200, .obj [("message", .str "Data processed successfully"),
                      ("records_processed",
                       .num (([itemGoodW, itemBadDateW].filterMap
                         fun i => (normalizeItem i).toOption).length)),
                      ("timestamp", .str cEnvOk.now)]⟩ := by
  have H := normalization_skips_exactly_malformed cEnvOk
    [("data", .arr [itemGoodW, itemBadDateW])] [itemGoodW, itemBadDateW]
    (by simp) (by decide) rfl rfl rfl rfl rfl
  exact ⟨H.1, H.2.2.1, H.2.2.2.1⟩

/-- Claim C7: for every well-formed feed item, each of the 23 numeric
fields absent from the item normalizes to `0` (not null) in its tuple
position, while `Remarks` and `DelistingDate` normalize to null when
absent or the empty string. -/
theorem absent_optional_fields_default
    (fields : List (String × Json)) (r : StockRecord)
    (h : normalizeItem (.obj fields) = .ok r) :
    (lookupField fields "Previous" = none → r.previous = .num 0)
    ∧ (lookupField fields "OpenPrice" = none → r.open_price = .num 0)
    ∧ (lookupField fields "FirstTrade" = none → r.first_trade = .num 0)
    ∧ (lookupField fields "High" = none → r.high = .num 0)
    ∧ (lookupField fields "Low" = none → r.low = .num 0)
    ∧ (lookupField fields "Close" = none → r.close = .num 0)
    ∧ (lookupField fields "Change" = none → r.change = .num 0)
    ∧ (lookupField fields "Volume" = none → r.volume = .num 0)
    ∧ (lookupField fields "Value" = none → r.value = .num 0)
    ∧ (lookupField fields "Frequency" = none → r.frequency = .num 0)
    ∧ (lookupField fields "IndexIndividual" = none → r.index_individual = .num 0)
    ∧ (lookupField fields "Offer" = none → r.offer = .num 0)
    ∧ (lookupField fields "OfferVolume" = none → r.offer_volume = .num 0)
    ∧ (lookupField fields "Bid" = none → r.bid = .num 0)
    ∧ (lookupField fields "BidVolume" = none → r.bid_volume = .num 0)
    ∧ (lookupField fields "ListedShares" = none → r.listed_shares = .num 0)
    ∧ (lookupField fields "TradebleShares" = none → r.tradeable_shares = .num 0)
    ∧ (lookupField fields "WeightForIndex" = none → r.weight_for_index = .num 0)
    ∧ (lookupField fields "ForeignSell" = none → r.foreign_sell = .num 0)
    ∧ (lookupField fields "ForeignBuy" = none → r.foreign_buy = .num 0)
    ∧ (lookupField fields "NonRegularVolume" = none → r.non_regular_volume = .num 0)
    ∧ (lookupField fields "NonRegularValue" = none → r.non_regular_value = .num 0)
    ∧ (lookupField fields "NonRegularFrequency" = none → r.non_regular_frequency = .num 0)
    ∧ ((lookupField fields "Remarks" = none ∨ lookupField fields "Remarks" = some (.str ""))
        → r.remarks = none)
    ∧ ((lookupField fields "DelistingDate" = none
          ∨ lookupField fields "DelistingDate" = some (.str ""))
        → r.delisting_date = none) := by
  simp only [normalizeItem] at h
  repeat' split at h
  all_goals cases h
  refine ⟨?_, ?_, ?_, ?_, ?_, ?_, ?_, ?_, ?_, ?_, ?_, ?_, ?_, ?_, ?_, ?_, ?_, ?_, ?_,
    ?_, ?_, ?_, ?_, ?_, ?_⟩
  all_goals
    first
    | (intro hl; simp [pyGetD, hl]; done)
    | (rintro (hl | hl) <;> simp [pyGetOrNone, hl, truthy])

/-- Witness for claim C7 at a minimal item carrying only the three
required fields: every numeric defaults to `0` and both optional
text/date fields to null. -/
theorem absent_optional_fields_default_witness :
    minRec.previous = .num 0 ∧ minRec.non_regular_frequency = .num 0
    ∧ minRec.remarks = none ∧ minRec.delisting_date = none := by
  obtain ⟨h1, h2, h3, h4, h5, h6, h7, h8, h9, h10, h11, h12, h13, h14, h15, h16, h17,
      h18, h19, h20, h21, h22, h23, h24, h25⟩ :=
    absent_optional_fields_default minFields minRec rfl
  exact ⟨h1 rfl, h23 rfl, h24 (Or.inl rfl), h25 (Or.inl rfl)⟩

/-- Claim C9: during normalization only `ValueError` and `KeyError`
skip the current item; a `TypeError` (for example from a non-mapping
item) escapes the per-item handler, aborts the whole invocation with
status 500 and body `{"error": "Unexpected error: <detail>"}`, and no
record of the feed is committed. -/
theorem only_value_key_error_skip :
    (∀ (item : Json) (rest : List Json) (m : String),
        normalizeItem item = .error (.valueError m)
        → buildBatch (item :: rest) = buildBatch rest)
    ∧ (∀ (item : Json) (rest : List Json) (m : String),
        normalizeItem item = .error (.keyError m)
        → buildBatch (item :: rest) = buildBatch rest)
    ∧ (∀ (item : Json) (rest : List Json) (m : String),
        normalizeItem item = .error (.typeError m)
        → buildBatch (item :: rest) = .error (.typeError m))
    ∧ (∀ (env : HandlerEnv) (fields : List (String × Json)) (items : List Json) (m : String),
        env.fetch = .success (.obj fields)
        → lookupField fields "data" = some (.arr items)
        → items ≠ []
        → get_db_connection env.envVars env.connectOutcome env.initialConn
            = (some false, .ok ())
        → buildBatch items = .error (.typeError m)
        → (lambda_handler env).response = ⟨500, errBody ("Unexpected error: " ++ m)⟩
          ∧ (lambda_handler env).committed = [])
    ∧ (∀ (item : Json) (rest : List Json) (e : PyError),
        normalizeItem item = .error e
        → (∀ m, e ≠ .valueError m) → (∀ m, e ≠ .keyError m)
        → buildBatch (item :: rest) = .error e) := by
  refine ⟨?_, ?_, ?_, ?_, ?_⟩
  · intro item rest m h
    simp [buildBatch, h]
  · intro item rest m h
    simp [buildBatch, h]
  · intro item rest m h
    simp [buildBatch, h]
  · intro env fields items m hfetch hdata hne hacq hb
    have hrun := runBody_batch_abort env fields items (.typeError m) hfetch hdata hne hacq hb
    unfold lambda_handler
    rw [hrun]
    exact ⟨rfl, rfl⟩
  · intro item rest e h hv hk
    rcases e with m | m | m | m
    · exact absurd rfl (hv m)
    · exact absurd rfl (hk m)
    · simp [buildBatch, h]
    · simp [buildBatch, h]

/-- Witness for claim C9: a missing-key item and a bad-date item are
skipped, while a non-mapping item (`3`) raises `TypeError` and makes
a concrete invocation return 500 with the unexpected-error body and
commit nothing — even though the feed also contains a good item. -/
theorem only_value_key_error_skip_witness :
    buildBatch [itemBadDateW]
      = buildBatch ([] : List Json)
    ∧ buildBatch [itemNoNameW] = buildBatch ([] : List Json)
    ∧ buildBatch [(.num 3 : Json)] = .error (.typeError "object is not subscriptable")
    ∧ (lambda_handler
        { cEnvOk with fetch := .success (.obj [("data", .arr [itemGoodW, .num 3])]) }).response
        = ⟨500, errBody ("Unexpected error: " ++ "object is not subscriptable")⟩
    ∧ (lambda_handler
        { cEnvOk with fetch := .success (.obj [("data", .arr [itemGoodW, .num 3])]) }).committed
        = [] := by
  have H := only_value_key_error_skip
  have h4 := H.2.2.2.1
    { cEnvOk with fetch := .success (.obj [("data", .arr [itemGoodW, .num 3])]) }
    [("data", .arr [itemGoodW, .num 3])] [itemGoodW, .num 3] "object is not subscriptable"
    rfl rfl (by simp) rfl rfl
  exact ⟨H.1 itemBadDateW []
      "time data '25-11-2025' does not match format '%Y-%m-%dT%H:%M:%S'" rfl,
    H.2.1 itemNoNameW [] "'StockName'" rfl,
    H.2.2.1 (.num 3) [] "object is not subscriptable" rfl,
    h4.1, h4.2⟩

/-- A `some` result of `firstMissingVar` is one of the four required
configuration keys. -/
theorem firstMissingVar_mem {vars : EnvVars} {v : String}
    (hv : firstMissingVar vars = some v) :
    v ∈ ["DB_HOST", "DB_NAME", "DB_USER", "DB_PASSWORD"] := by
  unfold firstMissingVar at hv
  split at hv
  · injection hv with hv; subst hv; decide
  · split at hv
    · injection hv with hv; subst hv; decide
    · split at hv
      · injection hv with hv; subst hv; decide
      · split at hv
        · injection hv with hv; subst hv; decide
        · cases hv

/-- When the shared handle is absent or closed and some required
configuration key is missing, acquisition raises `KeyError` for the
first missing key (in keyword-argument order) after resetting the
shared handle to `None`. -/
theorem get_db_connection_missing (vars : EnvVars) (co : Except String Unit)
    (conn : Option Bool) (hstale : conn = none ∨ conn = some true)
    {v : String} (hv : firstMissingVar vars = some v) :
    get_db_connection vars co conn
      = (none, .error (.py (.keyError ("'" ++ v ++ "'")))) := by
  have hred : get_db_connection vars co conn
      = (if vars.db_host.isNone then (none, .error (.py (.keyError "'DB_HOST'")))
         else if vars.db_name.isNone then (none, .error (.py (.keyError "'DB_NAME'")))
         else if vars.db_user.isNone then (none, .error (.py (.keyError "'DB_USER'")))
         else if vars.db_password.isNone then (none, .error (.py (.keyError "'DB_PASSWORD'")))
         else
           match co with
           | .ok () => (some false, .ok ())
           | .error d => (none, .error (.dbError d))) := by
    rcases hstale with rfl | rfl <;> rfl
  rw [hred]
  unfold firstMissingVar at hv
  by_cases h1 : vars.db_host.isNone
  · rw [if_pos h1] at hv
    injection hv with hv
    subst hv
    rw [if_pos h1]
    rfl
  · rw [if_neg h1] at hv
    rw [if_neg h1]
    by_cases h2 : vars.db_name.isNone
    · rw [if_pos h2] at hv
      injection hv with hv
      subst hv
      rw [if_pos h2]
      rfl
    · rw [if_neg h2] at hv
      rw [if_neg h2]
      by_cases h3 : vars.db_user.isNone
      · rw [if_pos h3] at hv
        injection hv with hv
        subst hv
        rw [if_pos h3]
        rfl
      · rw [if_neg h3] at hv
        rw [if_neg h3]
        by_cases h4 : vars.db_password.isNone
        · rw [if_pos h4] at hv
          injection hv with hv
          subst hv
          rw [if_pos h4]
          rfl
        · rw [if_neg h4] at hv
          cases hv

/-- Claim C10: if a required configuration variable (`DB_HOST`,
`DB_NAME`, `DB_USER` or `DB_PASSWORD`) is absent when a new connection
must be opened (no handle, or a closed one), acquisition raises a
`KeyError` that is re-propagated after the shared handle is reset to
`None`, and the invocation ends with status 500 and the generic body
`{"error": "Unexpected error: <detail>"}` — not the database-error
class — with nothing committed. -/
theorem missing_env_var_unexpected (env : HandlerEnv) (fields : List (String × Json))
    (items : List Json) (v : String)
    (hfetch : env.fetch = .success (.obj fields))
    (hdata : lookupField fields "data" = some (.arr items))
    (hne : items ≠ [])
    (hstale : env.initialConn = none ∨ env.initialConn = some true)
    (hv : firstMissingVar env.envVars = some v) :
    v ∈ ["DB_HOST", "DB_NAME", "DB_USER", "DB_PASSWORD"]
    ∧ (lambda_handler env).response
        = ⟨500, errBody ("Unexpected error: " ++ ("'" ++ v ++ "'"))⟩
    ∧ (lambda_handler env).conn = none
    ∧ (lambda_handler env).committed = [] := by
  have hconn :=
    get_db_connection_missing env.envVars env.connectOutcome env.initialConn hstale hv
  have hrun := runBody_conn_error env fields items none (.py (.keyError ("'" ++ v ++ "'")))
    hfetch hdata hne hconn
  unfold lambda_handler
  rw [hrun]
  exact ⟨firstMissingVar_mem hv, rfl, rfl, rfl⟩

/-- Witness for claim C10 with `DB_USER` missing from a fresh
environment: 500, the unexpected-error body naming `DB_USER`, handle
reset, nothing committed. -/
theorem missing_env_var_unexpected_witness :
    ("DB_USER" : String) ∈ ["DB_HOST", "DB_NAME", "DB_USER", "DB_PASSWORD"]
    ∧ (lambda_handler
        { cEnvOk with envVars := ⟨some "h", some "db", none, some "pw", none⟩ }).response
        = ⟨500, errBody ("Unexpected error: " ++ ("'" ++ "DB_USER" ++ "'"))⟩
    ∧ (lambda_handler
        { cEnvOk with envVars := ⟨some "h", some "db", none, some "pw", none⟩ }).conn = none
    ∧ (lambda_handler
        { cEnvOk with envVars := ⟨some "h", some "db", none, some "pw", none⟩ }).committed
        = [] :=
  missing_env_var_unexpected
    { cEnvOk with envVars := ⟨some "h", some "db", none, some "pw", none⟩ }
    [("data", .arr [itemGoodW, itemBadDateW])] [itemGoodW, itemBadDateW] "DB_USER"
    rfl rfl (by simp) (Or.inl rfl) rfl

end IdxStock
